import Mathlib

/-!
Shallow embedding of the TDCNet demo dashboards' derivation logic:
fault enrichment (risk level, SLA-breach flag) from
src/streamlit_apps/manager_dashboard/app.py, and the procedure matcher,
step extractor, excerpt extractor and SOP search from
src/streamlit_apps/field_engineer_app/app.py.

Floats are modelled as rationals (the code only compares and adds
decimal constants), pandas rows as structures, Python `None` as
`Option`, and Python strings as Lean strings (case mapping is
per-character, faithful on the ASCII data involved).
-/

namespace TDCNet

/-- A fault record as used by `load_fault_data` after enrichment:
only the fields that the derivations below read. `hours_since_fault`
is the already-computed elapsed time in hours; `resolution_timestamp`
is `none` when the pandas cell is NaT. -/
structure FaultRecord where
  fault_category : String
  hours_since_fault : ℚ
  resolution_timestamp : Option ℚ
  calculated_priority_score : ℚ
deriving DecidableEq

/-- `df['is_resolved'] = df['resolution_timestamp'].notna()`
(manager_dashboard/app.py line 119). -/
def is_resolved (r : FaultRecord) : Bool :=
  r.resolution_timestamp.isSome

/-- Risk level from the priority score (manager_dashboard/app.py
lines 151-154):
`'CRITICAL' if x > 0.8 else 'HIGH' if x > 0.6 else 'MEDIUM' if x > 0.4 else 'LOW'`. -/
def risk_level (x : ℚ) : String :=
  if x > 0.8 then "CRITICAL"
  else if x > 0.6 then "HIGH"
  else if x > 0.4 then "MEDIUM"
  else "LOW"

/-- SLA breach risk (manager_dashboard/app.py lines 156-161):
a disjunction over the three category thresholds; the resolution
status is not consulted. -/
def sla_breach_risk (r : FaultRecord) : Bool :=
  (r.fault_category == "Cable Fault" && decide (r.hours_since_fault > 4)) ||
  (r.fault_category == "Major" && decide (r.hours_since_fault > 2)) ||
  (r.fault_category == "Minor" && decide (r.hours_since_fault > 1))

/-- C2: For every priority score `s`, the derived risk level is
CRITICAL iff `s > 0.8`, HIGH iff `0.6 < s ≤ 0.8`, MEDIUM iff
`0.4 < s ≤ 0.6` and LOW iff `s ≤ 0.4`; moreover at the boundaries
0.8 is HIGH, 0.6 is MEDIUM and 0.4 is LOW. -/
theorem risk_level_tiers (s : ℚ) :
    (risk_level s = "CRITICAL" ↔ s > 0.8) ∧
    (risk_level s = "HIGH" ↔ 0.6 < s ∧ s ≤ 0.8) ∧
    (risk_level s = "MEDIUM" ↔ 0.4 < s ∧ s ≤ 0.6) ∧
    (risk_level s = "LOW" ↔ s ≤ 0.4) ∧
    risk_level (0.8 : ℚ) = "HIGH" ∧
    risk_level (0.6 : ℚ) = "MEDIUM" ∧
    risk_level (0.4 : ℚ) = "LOW" := by
  have core : (risk_level s = "CRITICAL" ↔ s > 0.8) ∧
      (risk_level s = "HIGH" ↔ 0.6 < s ∧ s ≤ 0.8) ∧
      (risk_level s = "MEDIUM" ↔ 0.4 < s ∧ s ≤ 0.6) ∧
      (risk_level s = "LOW" ↔ s ≤ 0.4) := by
    unfold risk_level
    split_ifs with h1 h2 h3 <;>
      refine ⟨?_, ?_, ?_, ?_⟩ <;> simp <;>
      try constructor
    all_goals try intro h
    all_goals linarith
  exact ⟨core.1, core.2.1, core.2.2.1, core.2.2.2,
    by norm_num [risk_level], by norm_num [risk_level], by norm_num [risk_level]⟩

/-- C2 witness: The tier theorem instantiated at the concrete
score 0.75. -/
theorem risk_level_tiers_witness :
    risk_level (0.75 : ℚ) = "HIGH" ↔ 0.6 < (0.75 : ℚ) ∧ (0.75 : ℚ) ≤ 0.8 :=
  (risk_level_tiers (0.75 : ℚ)).2.1

/-- The SLA-breach formula characterised as a proposition, for any
record: the flag depends only on the category and elapsed hours. -/
theorem sla_breach_risk_iff (r : FaultRecord) :
    sla_breach_risk r = true ↔
      (r.fault_category = "Cable Fault" ∧ r.hours_since_fault > 4) ∨
      (r.fault_category = "Major" ∧ r.hours_since_fault > 2) ∨
      (r.fault_category = "Minor" ∧ r.hours_since_fault > 1) := by
  simp [sla_breach_risk, or_assoc]

/-- A resolved Cable Fault record, 5 hours after the fault. -/
def resolvedCableFaultAt5h : FaultRecord :=
  { fault_category := "Cable Fault"
    hours_since_fault := 5
    resolution_timestamp := some 1
    calculated_priority_score := 0.5 }

/-- C1 counterexample: a resolved Cable Fault record whose fault is
5 hours old is flagged as an SLA breach risk, although the claim says
the flag is false for every resolved record. -/
theorem resolved_record_flagged :
    is_resolved resolvedCableFaultAt5h = true ∧
    sla_breach_risk resolvedCableFaultAt5h = true := by
  constructor <;> rfl

/-- C1 amended: for every resolved fault record, `sla_breach_risk` is
not forced to false; it is true exactly when the record's
category-specific elapsed-time threshold is strictly exceeded, the
same rule as for unresolved records (the code never consults the
resolution status). -/
theorem sla_breach_risk_ignores_resolution (r : FaultRecord)
    (_h : is_resolved r = true) :
    sla_breach_risk r = true ↔
      (r.fault_category = "Cable Fault" ∧ r.hours_since_fault > 4) ∨
      (r.fault_category = "Major" ∧ r.hours_since_fault > 2) ∨
      (r.fault_category = "Minor" ∧ r.hours_since_fault > 1) :=
  sla_breach_risk_iff r

/-- C1 amended witness: the amended statement applied to the concrete
resolved record above. -/
theorem sla_breach_risk_ignores_resolution_witness :
    is_resolved resolvedCableFaultAt5h = true ∧
    (sla_breach_risk resolvedCableFaultAt5h = true ↔
      (resolvedCableFaultAt5h.fault_category = "Cable Fault" ∧
        resolvedCableFaultAt5h.hours_since_fault > 4) ∨
      (resolvedCableFaultAt5h.fault_category = "Major" ∧
        resolvedCableFaultAt5h.hours_since_fault > 2) ∨
      (resolvedCableFaultAt5h.fault_category = "Minor" ∧
        resolvedCableFaultAt5h.hours_since_fault > 1)) :=
  ⟨rfl, sla_breach_risk_ignores_resolution resolvedCableFaultAt5h rfl⟩

/-- C5: for every unresolved fault record, `sla_breach_risk` is true
iff the category-specific threshold is strictly exceeded: Cable Fault
beyond 4 hours, Major beyond 2 hours, Minor beyond 1 hour. -/
theorem sla_breach_risk_unresolved (r : FaultRecord)
    (_h : is_resolved r = false) :
    sla_breach_risk r = true ↔
      (r.fault_category = "Cable Fault" ∧ r.hours_since_fault > 4) ∨
      (r.fault_category = "Major" ∧ r.hours_since_fault > 2) ∨
      (r.fault_category = "Minor" ∧ r.hours_since_fault > 1) :=
  sla_breach_risk_iff r

/-- An unresolved Cable Fault record at exactly 4.0 elapsed hours. -/
def unresolvedCableFaultAt4h : FaultRecord :=
  { fault_category := "Cable Fault"
    hours_since_fault := 4
    resolution_timestamp := none
    calculated_priority_score := 0.5 }

/-- Position of the first occurrence of `needle` in a character list,
Python's `str.find` (`none` for Python's `-1`). -/
def findSub (needle : List Char) : List Char → Option Nat
  | [] => if needle.isPrefixOf ([] : List Char) then some 0 else none
  | c :: t =>
    if needle.isPrefixOf (c :: t) then some 0
    else (findSub needle t).map (· + 1)

/-- Python's substring test `needle in hay`. -/
def containsSub (needle hay : String) : Bool :=
  (findSub needle.toList hay.toList).isSome

/-- Python's `str.strip()` on a character list: drop whitespace from
both ends. -/
def stripChars (cs : List Char) : List Char :=
  ((cs.dropWhile Char.isWhitespace).reverse.dropWhile Char.isWhitespace).reverse

/-- Python's `str.strip()`. -/
def pyStrip (s : String) : String :=
  String.mk (stripChars s.toList)

/-- Python's `str.upper()` (per-character, faithful on ASCII). -/
def pyUpper (s : String) : String :=
  String.mk (s.toList.map Char.toUpper)

/-- Python's `str.lower()` (per-character, faithful on ASCII). -/
def pyLower (s : String) : String :=
  String.mk (s.toList.map Char.toLower)

/-- Split a character list at every newline, Python's `split('\n')`:
the empty string yields one empty line. -/
def splitNl : List Char → List (List Char)
  | [] => [[]]
  | c :: t =>
    match splitNl t, c == '\n' with
    | r, true => [] :: r
    | [], false => [[c]]
    | cur :: rest, false => (c :: cur) :: rest

/-- Python's `content.split('\n')` on strings. -/
def pySplitNl (s : String) : List String :=
  (splitNl s.toList).map String.mk

/-- The four step groups collected by `generate_repair_procedure`
(field_engineer_app/app.py lines 350-353). -/
structure RepairSteps where
  safety_steps : List String
  diagnostic_steps : List String
  repair_steps : List String
  verification_steps : List String
deriving DecidableEq

/-- The value of the `current_section` variable. -/
inductive StepSection
  | safety
  | diagnostic
  | repair
  | verification
deriving DecidableEq

/-- Append a (stripped) line to the step list selected by `sec`. -/
def appendStep (sec : StepSection) (st : RepairSteps) (l : String) : RepairSteps :=
  match sec with
  | .safety => { st with safety_steps := st.safety_steps ++ [l] }
  | .diagnostic => { st with diagnostic_steps := st.diagnostic_steps ++ [l] }
  | .repair => { st with repair_steps := st.repair_steps ++ [l] }
  | .verification => { st with verification_steps := st.verification_steps ++ [l] }

/-- `line.startswith(('1.', '2.', '3.', '4.', '5.', '-'))`
(field_engineer_app/app.py line 372). -/
def startsStep (l : String) : Bool :=
  ["1.", "2.", "3.", "4.", "5.", "-"].any (fun p => p.toList.isPrefixOf l.toList)

/-- One iteration of the parsing loop of `generate_repair_procedure`
(field_engineer_app/app.py lines 359-380): strip the line, skip it if
blank, switch sections on keyword lines, and otherwise capture
marker-led lines into the active section. -/
def parse_line (st : Option StepSection × RepairSteps) (raw : String) :
    Option StepSection × RepairSteps :=
  let line := pyStrip raw
  if line = "" then st
  else if containsSub "SAFETY" (pyUpper line) then (some .safety, st.2)
  else if containsSub "DIAGNOSTIC" (pyUpper line) then (some .diagnostic, st.2)
  else if containsSub "REPAIR" (pyUpper line) || containsSub "RESOLUTION" (pyUpper line) then
    (some .repair, st.2)
  else if containsSub "VERIFICATION" (pyUpper line) then (some .verification, st.2)
  else if startsStep line then
    match st.1 with
    | some sec => (st.1, appendStep sec st.2 line)
    | none => st
  else st

/-- The step extractor: `content.split('\n')` folded through the
parsing loop, starting with no active section and four empty lists. -/
def extract_steps (content : String) : RepairSteps :=
  ((pySplitNl content).foldl parse_line (none, ⟨[], [], [], []⟩)).2

/-- A line is a section header when its uppercased form contains one
of the five keywords (field_engineer_app/app.py lines 364-371). -/
def isHeader (l : String) : Bool :=
  containsSub "SAFETY" (pyUpper l) || containsSub "DIAGNOSTIC" (pyUpper l) ||
  containsSub "REPAIR" (pyUpper l) || containsSub "RESOLUTION" (pyUpper l) ||
  containsSub "VERIFICATION" (pyUpper l)

/-- C3 counterexample: in an active SAFETY section, the line
`6. step six` starts with the numbered marker `6.` yet is not
captured (the code only recognises `1.`-`5.` and `-`), and the line
`1. Check SAFETY gear` starts with `1.` yet is also not captured
(it contains a section keyword and is treated as a header). -/
theorem numbered_marker_not_captured :
    (extract_steps "SAFETY:\n6. step six").safety_steps = [] ∧
    (extract_steps "SAFETY:\n1. Check SAFETY gear").safety_steps = [] := by
  constructor <;> rfl

/-- C3 amended: in an active section, a stripped line is appended to
that section's list iff it is nonempty, contains none of the section
keywords (uppercased), and starts with `1.`, `2.`, `3.`, `4.`, `5.`
or `-`; every other line leaves all four step lists unchanged. -/
theorem step_capture_rule (sec : StepSection) (st : RepairSteps) (raw : String) :
    (parse_line (some sec, st) raw).2 =
      if pyStrip raw ≠ "" ∧ isHeader (pyStrip raw) = false ∧ startsStep (pyStrip raw) = true
      then appendStep sec st (pyStrip raw)
      else st := by
  simp only [parse_line, isHeader]
  split_ifs <;> simp_all

/-- C8: the worked example from the spec: two numbered safety steps
and one bulleted diagnostic step are extracted, the other two lists
stay empty. -/
theorem extract_steps_example :
    extract_steps "SAFETY:\n1. Wear gloves\n2. Check power\nDIAGNOSTIC:\n- run test" =
      ⟨["1. Wear gloves", "2. Check power"], ["- run test"], [], []⟩ := by
  rfl

/-- Normalise one Python slice index: negative indices count from the
end, positive ones are clamped to the length. -/
def pyNormIdx (len : Nat) (i : Int) : Nat :=
  if i < 0 then ((len : Int) + i).toNat else min i.toNat len

/-- Python's `cs[a:b]` slice on a character list. -/
def pySlice (cs : List Char) (a b : Int) : List Char :=
  let lo := pyNormIdx cs.length a
  let hi := pyNormIdx cs.length b
  (cs.drop lo).take (hi - lo)

/-- `extract_relevant_excerpt` (field_engineer_app/app.py lines
259-282): case-insensitive find of the query, a window of the
original content around the hit with ellipses where the content is
cut off, or the truncated prefix when the query is absent. -/
def extract_relevant_excerpt (content query : String) (max_length : Nat := 500) : String :=
  let content_lower := content.toList.map Char.toLower
  let query_lower := query.toList.map Char.toLower
  match findSub query_lower content_lower with
  | some pos =>
    let n := content.toList.length
    let start : Int := max 0 ((pos : Int) - 100)
    let stop : Int := min (n : Int) ((pos : Int) + (max_length : Int) - 100)
    let excerpt := String.mk (pySlice content.toList start stop)
    let excerpt := if start > 0 then "..." ++ excerpt else excerpt
    let excerpt := if stop < (n : Int) then excerpt ++ "..." else excerpt
    excerpt
  | none =>
    String.mk (content.toList.take max_length) ++
      (if content.toList.length > max_length then "..." else "")

/-- The excerpt contract as worded in the spec (section 4.4): the
window `content[max(0,p-100) : min(len(content), p+max_length-100)]`,
prefixed with an ellipsis when the window start stays above 0 and
suffixed with one when the window end falls short of the content
length; otherwise the first `max_length` characters, suffixed with an
ellipsis only when the content is longer than that. -/
def excerpt_spec (content query : String) (max_length : Nat) : String :=
  match findSub (query.toList.map Char.toLower) (content.toList.map Char.toLower) with
  | some p =>
    let lo : Int := max 0 ((p : Int) - 100)
    let hi : Int := min ((content.toList.length : Int)) ((p : Int) + (max_length : Int) - 100)
    let window := String.mk (pySlice content.toList lo hi)
    let withHead := if lo > 0 then "..." ++ window else window
    if hi < (content.toList.length : Int) then withHead ++ "..." else withHead
  | none =>
    if content.toList.length > max_length
    then String.mk (content.toList.take max_length) ++ "..."
    else String.mk (content.toList.take max_length)

/-- C7: the excerpt operation agrees with the windowing contract of
the spec on every content, query and maximum length, and on the
worked example the content is returned unchanged. -/
theorem extract_relevant_excerpt_spec :
    (∀ (content query : String) (max_length : Nat),
      extract_relevant_excerpt content query max_length =
        excerpt_spec content query max_length) ∧
    extract_relevant_excerpt "abcXYZdef" "xyz" 500 = "abcXYZdef" := by
  constructor
  · intro content query max_length
    unfold extract_relevant_excerpt excerpt_spec
    cases hf : findSub (query.toList.map Char.toLower) (content.toList.map Char.toLower) with
    | some p => simp only [hf]
    | none =>
      simp only [hf]
      split_ifs with h
      · rfl
      · exact String.append_empty _
  · rfl

/-- One row of the simulated/fallback SOP search results. -/
structure SearchResult where
  document_id : String
  title : String
  category : String
  relevance_score : ℚ
  content_excerpt : String
deriving DecidableEq

/-- The single placeholder row returned when the search service
fails (field_engineer_app/app.py lines 249-257). -/
def fallbackResult (query : String) : SearchResult :=
  { document_id := "SOP-FALLBACK"
    title := "Search Service Unavailable"
    category := "System"
    relevance_score := 0.5
    content_excerpt :=
      "Unable to search for: " ++ query ++ ". Please check system connectivity." }

/-- The two simulated result rows built from the enhanced query
(field_engineer_app/app.py lines 217-232). -/
def simulatedResults (enhanced_query : String) : List SearchResult :=
  [ { document_id := "SOP-001"
      title := "Cable Fault Resolution Procedures"
      category := "Cable Fault"
      relevance_score := 0.95
      content_excerpt := "Search results for: " ++ enhanced_query ++
        "\n\nSAFETY REQUIREMENTS:\n- Ensure proper PPE (hard hat, safety vest, gloves)\n- Check for electrical hazards\n- Establish safety perimeter" },
    { document_id := "SOP-002"
      title := "Service Degradation Troubleshooting"
      category := "Major"
      relevance_score := 0.75
      content_excerpt := "Diagnostic steps for: " ++ enhanced_query ++
        "\n\nINITIAL ASSESSMENT:\n- Check system alarms\n- Review traffic patterns\n- Identify affected areas" } ]

/-- Python truthiness of an optional string: `None` and the empty
string are falsy. -/
def pyTruthy : Option String → Bool
  | none => false
  | some s => !(s == "")

/-- `search_sop_documents_cortex` (field_engineer_app/app.py lines
201-257). The external session acquisition is the only fallible
step of the body; `session_ok = false` is the `except` path. -/
def search_sop_documents_cortex (query : String)
    (fault_code equipment_type : Option String) (session_ok : Bool) :
    List SearchResult :=
  if session_ok then
    let q1 := if pyTruthy fault_code then query ++ " " ++ fault_code.getD "" else query
    let enhanced_query :=
      if pyTruthy equipment_type then q1 ++ " " ++ equipment_type.getD "" else q1
    let query_lower := pyLower enhanced_query
    let filtered := (simulatedResults enhanced_query).filter (fun r =>
      containsSub query_lower (pyLower r.title) ||
      containsSub query_lower (pyLower r.content_excerpt) ||
      (pyTruthy fault_code && containsSub (fault_code.getD "") r.content_excerpt))
    filtered.take 3
  else
    [fallbackResult query]

/-- C9: the SOP search returns at most 3 rows for every input, and on
a failed external call it returns exactly the single fallback
placeholder row instead of propagating the error. -/
theorem search_sop_documents_cortex_bounds :
    (∀ (query : String) (fault_code equipment_type : Option String) (session_ok : Bool),
      (search_sop_documents_cortex query fault_code equipment_type session_ok).length ≤ 3) ∧
    (∀ (query : String) (fault_code equipment_type : Option String),
      search_sop_documents_cortex query fault_code equipment_type false =
        [fallbackResult query]) := by
  constructor
  · intro query fault_code equipment_type session_ok
    unfold search_sop_documents_cortex
    split_ifs <;>
      simp only [List.length_take, List.length_cons, List.length_nil] <;> omega
  · intro query fault_code equipment_type
    rfl

/-- A candidate SOP document as a Python dict: `fault_codes` and
`equipment_types` default to the empty list under `doc.get`, while
`content`, `title` and `description` are looked up with the empty
string as default and chained with Python `or`. -/
structure SOPDoc where
  document_id : String
  title : Option String
  category : String
  equipment_types : List String
  fault_codes : List String
  content : Option String
  description : Option String
deriving DecidableEq

/-- Python's `a or b` on strings: the first operand unless falsy. -/
def pyOrS (a b : String) : String :=
  if a = "" then b else a

/-- `doc.get('content', '') or doc.get('title', '') or doc.get('description', '')`
(field_engineer_app/app.py line 304). -/
def content_text (doc : SOPDoc) : String :=
  pyOrS (doc.content.getD "") (pyOrS (doc.title.getD "") (doc.description.getD ""))

/-- The cumulative match score of one candidate document
(field_engineer_app/app.py lines 291-306): +0.8 for an exact
fault-code membership, +0.6 (at most once) for a case-insensitive
equipment-type substring hit, +0.4 when the fault code occurs in the
fallback content text. -/
def doc_score (fault_code equipment_type : String) (doc : SOPDoc) : ℚ :=
  (if fault_code ∈ doc.fault_codes then 0.8 else 0) +
  (if doc.equipment_types.any
      (fun eq => containsSub (pyLower equipment_type) (pyLower eq)) then 0.6 else 0) +
  (if containsSub fault_code (content_text doc) then 0.4 else 0)

/-- One iteration of the best-match loop (field_engineer_app/app.py
lines 308-310): keep the incumbent unless the new score is strictly
higher. -/
def match_step (fault_code equipment_type : String)
    (acc : Option SOPDoc × ℚ) (doc : SOPDoc) : Option SOPDoc × ℚ :=
  let score := doc_score fault_code equipment_type doc
  if score > acc.2 then (some doc, score) else acc

/-- The full best-match loop, starting from `best_match = None`,
`best_score = 0`. -/
def find_best_match (fault_code equipment_type : String)
    (docs : List SOPDoc) : Option SOPDoc × ℚ :=
  docs.foldl (match_step fault_code equipment_type) (none, 0)

/-- The selected document of `generate_repair_procedure`; `none`
makes the caller build the generic fallback procedure. -/
def best_match (fault_code equipment_type : String)
    (docs : List SOPDoc) : Option SOPDoc :=
  (find_best_match fault_code equipment_type docs).1

/-- A document whose `content` field is present but empty, and whose
title contains the fault code FC-1. -/
def emptyContentDoc : SOPDoc :=
  { document_id := "SOP-X"
    title := some "FC-1 guide"
    category := "Minor"
    equipment_types := []
    fault_codes := []
    content := some ""
    description := none }

/-- A document whose only matching feature for fault code FC-9 is its
fault-code set. -/
def onlyCodeDoc : SOPDoc :=
  { document_id := "SOP-Y"
    title := some "Unrelated title"
    category := "Minor"
    equipment_types := ["Router"]
    fault_codes := ["FC-9"]
    content := some "No codes here"
    description := none }

/-- C4 counterexample: for a document with a (present but empty)
content field whose title contains the fault code, the code scores
0.4 although the fault code is not a substring of the content and no
other component applies, so the claim's sum predicts 0. -/
theorem empty_content_scores_from_title :
    doc_score "FC-1" "XDSL" emptyContentDoc = 0.4 ∧
    emptyContentDoc.content = some "" ∧
    "FC-1" ∉ emptyContentDoc.fault_codes ∧
    emptyContentDoc.equipment_types = [] ∧
    containsSub "FC-1" (emptyContentDoc.content.getD "") = false := by
  have h1 : containsSub "FC-1" "FC-1 guide" = true := rfl
  refine ⟨?_, rfl, by simp [emptyContentDoc], rfl, rfl⟩
  simp only [doc_score, emptyContentDoc, content_text, pyOrS]
  norm_num [h1]
  decide

/-- C4 amended: the cumulative score is the sum of 0.8 for exact
fault-code membership, 0.6 (added at most once) when the equipment
type is a case-insensitive substring of some equipment-type entry,
and 0.4 when the fault code occurs as a substring of the content
text, where the content text falls back to the title and then the
description whenever the content field is missing or empty; a
document whose only matching feature is its fault-code set scores
exactly 0.8. -/
theorem doc_score_components :
    (∀ (fault_code equipment_type : String) (doc : SOPDoc),
      doc_score fault_code equipment_type doc =
        (if fault_code ∈ doc.fault_codes then (0.8 : ℚ) else 0) +
        (if ∃ eq ∈ doc.equipment_types,
            containsSub (pyLower equipment_type) (pyLower eq) = true
          then (0.6 : ℚ) else 0) +
        (if containsSub fault_code
            (pyOrS (doc.content.getD "")
              (pyOrS (doc.title.getD "") (doc.description.getD ""))) = true
          then (0.4 : ℚ) else 0)) ∧
    doc_score "FC-9" "ZZZ" onlyCodeDoc = 0.8 := by
  constructor
  · intro fault_code equipment_type doc
    unfold doc_score content_text
    congr 2
    simp [List.any_eq_true]
  · have h3 : containsSub (pyLower "ZZZ") (pyLower "Router") = false := rfl
    have h4 : containsSub "FC-9" "No codes here" = false := rfl
    simp only [doc_score, onlyCodeDoc, content_text, pyOrS]
    norm_num [h3, h4]
    decide

/-- The seed of a running maximum never exceeds the result. -/
theorem le_foldl_max (l : List ℚ) (s : ℚ) : s ≤ l.foldl max s := by
  induction l generalizing s with
  | nil => exact le_refl s
  | cons a t ih => exact le_trans (le_max_left s a) (ih (max s a))

/-- Every list element is bounded by the running maximum. -/
theorem mem_le_foldl_max (l : List ℚ) (s x : ℚ) (hx : x ∈ l) :
    x ≤ l.foldl max s := by
  induction l generalizing s with
  | nil => cases hx
  | cons a t ih =>
    rcases List.mem_cons.mp hx with rfl | hx
    · exact le_trans (le_max_right s x) (le_foldl_max t (max s x))
    · exact ih (max s a) hx

/-- The running maximum is bounded by any common upper bound. -/
theorem foldl_max_le (l : List ℚ) (c s : ℚ) (hl : ∀ x ∈ l, x ≤ c) (hs : s ≤ c) :
    l.foldl max s ≤ c := by
  induction l generalizing s with
  | nil => exact hs
  | cons a t ih =>
    exact ih (max s a) (fun x hx => hl x (List.mem_cons_of_mem a hx))
      (max_le hs (hl a (List.mem_cons_self a t)))

/-- Closed form of the best-match loop from any starting state: the
running score ends at the maximum of the seed and all candidate
scores, and the selected document is the first one attaining that
maximum when some candidate beat the seed, else the incumbent. -/
theorem foldl_match_step_eq (fc et : String) (docs : List SOPDoc)
    (b₀ : Option SOPDoc) (s₀ : ℚ) :
    docs.foldl (match_step fc et) (b₀, s₀) =
      ((if (docs.map (doc_score fc et)).foldl max s₀ > s₀
        then docs.find?
          (fun d => doc_score fc et d == (docs.map (doc_score fc et)).foldl max s₀)
        else b₀),
       (docs.map (doc_score fc et)).foldl max s₀) := by
  induction docs generalizing b₀ s₀ with
  | nil => simp
  | cons d t ih =>
    simp only [List.foldl_cons, List.map_cons]
    by_cases h : doc_score fc et d > s₀
    · have hstep : match_step fc et (b₀, s₀) d = (some d, doc_score fc et d) := by
        simp [match_step, h]
      rw [hstep, ih, max_eq_right (le_of_lt h)]
      have hdm : doc_score fc et d ≤ (t.map (doc_score fc et)).foldl max (doc_score fc et d) :=
        le_foldl_max _ _
      rw [if_pos (lt_of_lt_of_le h hdm)]
      by_cases h2 :
          (t.map (doc_score fc et)).foldl max (doc_score fc et d) > doc_score fc et d
      · rw [if_pos h2, List.find?_cons_of_neg]
        simp only [ne_eq, beq_eq_false_iff_ne.mpr (ne_of_lt h2), Bool.false_eq_true,
          not_false_eq_true]
      · rw [if_neg h2, List.find?_cons_of_pos]
        exact beq_iff_eq.mpr (le_antisymm hdm (not_lt.mp h2))
    · have hstep : match_step fc et (b₀, s₀) d = (b₀, s₀) := by
        simp [match_step, h]
      rw [hstep, ih, max_eq_left (not_lt.mp h)]
      by_cases h2 : (t.map (doc_score fc et)).foldl max s₀ > s₀
      · rw [if_pos h2, if_pos h2, List.find?_cons_of_neg]
        simp only [
          beq_eq_false_iff_ne.mpr (ne_of_lt (lt_of_le_of_lt (not_lt.mp h) h2)),
          Bool.false_eq_true, not_false_eq_true]
      · rw [if_neg h2, if_neg h2]

/-- `best_match` in closed form: `none` unless some candidate scores
above 0, otherwise the first candidate attaining the maximal score. -/
theorem best_match_eq (fc et : String) (docs : List SOPDoc) :
    best_match fc et docs =
      (if (docs.map (doc_score fc et)).foldl max 0 > 0
       then docs.find?
         (fun d => doc_score fc et d == (docs.map (doc_score fc et)).foldl max 0)
       else none) := by
  unfold best_match find_best_match
  rw [foldl_match_step_eq]

/-- C6: no candidate is selected (and the generic fallback procedure
is produced) when the candidate list is empty, and more generally
when no candidate scores strictly above 0; any selected document has
a strictly positive score. -/
theorem no_positive_score_no_selection (fc et : String) (docs : List SOPDoc) :
    best_match fc et ([] : List SOPDoc) = none ∧
    ((∀ d ∈ docs, doc_score fc et d ≤ 0) → best_match fc et docs = none) ∧
    (∀ d, best_match fc et docs = some d → doc_score fc et d > 0) := by
  refine ⟨rfl, ?_, ?_⟩
  · intro hall
    rw [best_match_eq, if_neg]
    rw [not_lt]
    refine foldl_max_le _ _ _ ?_ (le_refl 0)
    intro x hx
    rcases List.mem_map.mp hx with ⟨d, hd, rfl⟩
    exact hall d hd
  · intro d hd
    rw [best_match_eq] at hd
    by_cases hm : (docs.map (doc_score fc et)).foldl max 0 > 0
    · rw [if_pos hm] at hd
      have := List.find?_some hd
      rw [beq_iff_eq] at this
      rw [this]
      exact hm
    · rw [if_neg hm] at hd
      cases hd

/-- A candidate that matches nothing for fault code FC-0 and
equipment type X. -/
def zeroScoreDoc : SOPDoc :=
  { document_id := "SOP-Z"
    title := some "Zero"
    category := "Minor"
    equipment_types := ["Cabinet"]
    fault_codes := ["OTHER"]
    content := some "irrelevant"
    description := none }

/-- C6 witness: the selection theorem applied to the singleton list
holding the scoreless candidate. -/
theorem no_positive_score_no_selection_witness :
    best_match "FC-0" "X" [zeroScoreDoc] = none := by
  have a1 : containsSub (pyLower "X") (pyLower "Cabinet") = false := rfl
  have a2 : containsSub "FC-0" "irrelevant" = false := rfl
  have e0 : doc_score "FC-0" "X" zeroScoreDoc = 0 := by
    unfold doc_score
    rw [if_neg (by decide : ¬ (("FC-0" : String) ∈ zeroScoreDoc.fault_codes)),
      if_neg (by decide : ¬ (zeroScoreDoc.equipment_types.any
        (fun eq => containsSub (pyLower "X") (pyLower eq)) = true)),
      if_neg (by decide : ¬ (containsSub "FC-0" (content_text zeroScoreDoc) = true))]
    norm_num
  refine (no_positive_score_no_selection "FC-0" "X" [zeroScoreDoc]).2.1 ?_
  intro d hd
  rw [List.mem_singleton] at hd
  subst hd
  exact le_of_eq e0

/-- `find?` returns the element at the first index satisfying the
predicate when all earlier indices fail it. -/
theorem find?_first_get {α : Type} (p : α → Bool) (l : List α) (i : Nat)
    (hi : i < l.length) (hp : p (l.get ⟨i, hi⟩) = true)
    (hprev : ∀ j (hj : j < i), p (l.get ⟨j, Nat.lt_trans hj hi⟩) = false) :
    l.find? p = some (l.get ⟨i, hi⟩) := by
  induction l generalizing i with
  | nil => exact absurd hi (Nat.not_lt_zero i)
  | cons a t ih =>
    cases i with
    | zero => exact List.find?_cons_of_pos _ hp
    | succ j =>
      have ha : p a = false := hprev 0 (Nat.succ_pos j)
      rw [List.find?_cons_of_neg _ (by simp [ha])]
      exact ih j (Nat.lt_of_succ_lt_succ hi) hp
        (fun k hk => hprev (k + 1) (Nat.succ_lt_succ hk))

/-- C10: when a candidate has a strictly positive score that no other
candidate exceeds and that every earlier candidate stays strictly
below, the matcher selects exactly that candidate: ties on the
maximal score resolve to the first document in input order. -/
theorem first_best_selected (fc et : String) (docs : List SOPDoc)
    (i : Nat) (hi : i < docs.length)
    (hpos : 0 < doc_score fc et (docs.get ⟨i, hi⟩))
    (hmax : ∀ j (hj : j < docs.length),
      doc_score fc et (docs.get ⟨j, hj⟩) ≤ doc_score fc et (docs.get ⟨i, hi⟩))
    (hearlier : ∀ j (hj : j < i),
      doc_score fc et (docs.get ⟨j, Nat.lt_trans hj hi⟩) <
        doc_score fc et (docs.get ⟨i, hi⟩)) :
    best_match fc et docs = some (docs.get ⟨i, hi⟩) := by
  have hmem : doc_score fc et (docs.get ⟨i, hi⟩) ∈ docs.map (doc_score fc et) :=
    List.mem_map_of_mem _ (docs.get_mem i hi)
  have hm_ge : doc_score fc et (docs.get ⟨i, hi⟩) ≤
      (docs.map (doc_score fc et)).foldl max 0 :=
    mem_le_foldl_max _ 0 _ hmem
  have hm_le : (docs.map (doc_score fc et)).foldl max 0 ≤
      doc_score fc et (docs.get ⟨i, hi⟩) := by
    refine foldl_max_le _ _ 0 ?_ (le_of_lt hpos)
    intro x hx
    rcases List.mem_map.mp hx with ⟨d, hd, rfl⟩
    rcases List.mem_iff_get.mp hd with ⟨⟨j, hj⟩, rfl⟩
    exact hmax j hj
  have hm : (docs.map (doc_score fc et)).foldl max 0 =
      doc_score fc et (docs.get ⟨i, hi⟩) :=
    le_antisymm hm_le hm_ge
  rw [best_match_eq, hm, if_pos hpos]
  refine find?_first_get _ docs i hi (beq_iff_eq.mpr rfl) ?_
  intro j hj
  exact beq_eq_false_iff_ne.mpr (ne_of_lt (hearlier j hj))

/-- The first of two candidates scoring the identical positive
score 0.8 for fault code FC-2. -/
def tieDocA : SOPDoc :=
  { document_id := "SOP-A"
    title := some "First tied document"
    category := "Minor"
    equipment_types := ["Rack"]
    fault_codes := ["FC-2"]
    content := some "no match here"
    description := none }

/-- The second candidate with the same score as `tieDocA`. -/
def tieDocB : SOPDoc :=
  { document_id := "SOP-B"
    title := some "Second tied document"
    category := "Minor"
    equipment_types := ["Rack"]
    fault_codes := ["FC-2"]
    content := some "no match here"
    description := none }

/-- C10 witness: with two candidates tied at score 0.8, the theorem
selects the first one. -/
theorem first_best_selected_witness :
    best_match "FC-2" "X" [tieDocA, tieDocB] = some tieDocA := by
  have eA : doc_score "FC-2" "X" tieDocA = 0.8 := by
    unfold doc_score
    rw [if_pos (by decide : ("FC-2" : String) ∈ tieDocA.fault_codes),
      if_neg (by decide : ¬ (tieDocA.equipment_types.any
        (fun eq => containsSub (pyLower "X") (pyLower eq)) = true)),
      if_neg (by decide : ¬ (containsSub "FC-2" (content_text tieDocA) = true))]
    norm_num
  have eB : doc_score "FC-2" "X" tieDocB = 0.8 := by
    unfold doc_score
    rw [if_pos (by decide : ("FC-2" : String) ∈ tieDocB.fault_codes),
      if_neg (by decide : ¬ (tieDocB.equipment_types.any
        (fun eq => containsSub (pyLower "X") (pyLower eq)) = true)),
      if_neg (by decide : ¬ (containsSub "FC-2" (content_text tieDocB) = true))]
    norm_num
  have h := first_best_selected "FC-2" "X" [tieDocA, tieDocB] 0 (by norm_num)
    (by
      have e0 : doc_score "FC-2" "X"
          ([tieDocA, tieDocB].get ⟨0, by norm_num⟩) = 0.8 := eA
      rw [e0]
      norm_num)
    (by
      intro j hj
      simp only [List.length_cons, List.length_nil] at hj
      interval_cases j
      · exact le_refl _
      · show doc_score "FC-2" "X" tieDocB ≤ doc_score "FC-2" "X" tieDocA
        rw [eA, eB])
    (by
      intro j hj
      exact absurd hj (Nat.not_lt_zero j))
  exact h

/-- C5 witness: at exactly 4.0 hours an unresolved Cable Fault is not
flagged, by the C5 theorem applied to the concrete record. -/
theorem sla_breach_risk_unresolved_witness :
    is_resolved unresolvedCableFaultAt4h = false ∧
    sla_breach_risk unresolvedCableFaultAt4h = false := by
  refine ⟨rfl, ?_⟩
  have h := sla_breach_risk_unresolved unresolvedCableFaultAt4h rfl
  simp only [unresolvedCableFaultAt4h] at h ⊢
  by_contra hb
  rcases h.mp (by revert hb; decide) with ⟨_, h4⟩ | ⟨hc, _⟩ | ⟨hc, _⟩
  · exact absurd h4 (by norm_num)
  · exact absurd hc (by decide)
  · exact absurd hc (by decide)

end TDCNet
